import Mathlib

/-!
Shallow embedding of the QuickEnglishLevelBot core (question service, session
service, assessment service, callback answer handler) together with theorems
settling the specification claims about it.

Sources embedded:
- `src/services/questionService.js` (`loadQuestions`, `validateQuestions`,
  `getQuestionById`, `checkAnswer`, `selectQuestionsForTest`, `shuffleArray`)
- `src/services/sessionService.js` (`createSession`, `recordAnswer`,
  `isTestComplete`)
- `src/services/assessmentService.js` (`getDefaultConfig`,
  `calculateAssessment`, `determineLevel`, `getRecommendation`)
- `src/utils/helpers.js` (`calculatePercentage`, `getLevelFromScore`)
- `src/handlers/callbackHandlers.js` (`handleAnswer` answer-processing core)

JavaScript numbers are modelled as exact integers/rationals (`Int`, `Nat`,
`ℚ`); `Math.round` becomes `jsRound`; the JS `x || d` default idiom on
numbers (where `0` and `undefined` are falsy) becomes `jsOrNat`; fallible
code returns `Except`/`Option`; the mutable session cache entry for one user
is threaded explicitly as an `Option Session`.
-/

namespace TimurBot

/-- JS `x || d` on an optional non-negative number: `undefined` and `0` are
falsy, any positive value is returned as-is. -/
def jsOrNat : Option Nat → Nat → Nat
  | none, d => d
  | some 0, d => d
  | some (n + 1), _ => n + 1

/-- JS `x || d` on an optional string: `undefined` and the empty string are
falsy. -/
def jsOrStr : Option String → String → String
  | none, d => d
  | some s, d => if s = "" then d else s

/-- JS `Math.round` on an exact rational: round half toward positive
infinity, i.e. `⌊q + 1/2⌋`. -/
def jsRound (q : ℚ) : Int := ⌊q + 1 / 2⌋

/-- A loaded question as used after validation: the shape guaranteed by
`data/questions.json` (`id`, `text`, `options`, `correct`, `level`,
`category`, optional `weight`). -/
structure Question where
  id : Int
  text : String
  options : List String
  correct : Int
  level : String
  category : String
  weight : Option Nat
deriving DecidableEq, Repr

/-- `questionService.getQuestionById`: `this.questions.find(q => q.id === id) || null`. -/
def getQuestionById (questions : List Question) (id : Int) : Option Question :=
  questions.find? (fun q => q.id == id)

/-- The object returned by `questionService.checkAnswer`. -/
structure CheckResult where
  isCorrect : Bool
  correctAnswer : Int
  correctOption : Option String
  selectedOption : Int
  weight : Nat
deriving DecidableEq, Repr

/-- `questionService.checkAnswer(questionId, selectedOption)`: throws when the
id is unknown, else reports correctness, the correct option text
(`options[correct]`, `undefined` when `correct` is out of range) and
`question.weight || 1`. -/
def checkAnswer (questions : List Question) (questionId : Int)
    (selectedOption : Int) : Except String CheckResult :=
  match getQuestionById questions questionId with
  | none => .error ("Question " ++ toString questionId ++ " not found")
  | some question =>
      .ok { isCorrect := question.correct == selectedOption
            correctAnswer := question.correct
            correctOption :=
              if question.correct < 0 then none
              else question.options[question.correct.toNat]?
            selectedOption := selectedOption
            weight := jsOrNat question.weight 1 }

/-- The record pushed onto `session.answers` by `sessionService.recordAnswer`:
`questionId`, `selectedOption`, `isCorrect`, `timestamp` — and no other field. -/
structure AnswerRecord where
  questionId : Int
  selectedOption : Int
  isCorrect : Bool
  timestamp : String
deriving DecidableEq, Repr

/-- A user session as created by `sessionService.createSession` (plus the
optional `endTime` stamped by `completeSession`). -/
structure Session where
  userId : Int
  username : Option String
  startTime : String
  answers : List AnswerRecord
  currentQuestion : Nat
  questions : List Question
  score : Nat
  isComplete : Bool
  state : String
  endTime : Option String
deriving DecidableEq, Repr

/-- `sessionService.createSession(userId, username)` with the clock passed
explicitly for `startTime`. -/
def createSession (userId : Int) (username : Option String) (now : String) :
    Session :=
  { userId := userId
    username := username
    startTime := now
    answers := []
    currentQuestion := 0
    questions := []
    score := 0
    isComplete := false
    state := "ready"
    endTime := none }

/-- The `answer` argument of `sessionService.recordAnswer` as built by the
callback handler: `questionId`, `selectedOption`, `isCorrect`, `weight`. -/
structure AnswerInput where
  questionId : Int
  selectedOption : Int
  isCorrect : Bool
  weight : Option Nat
deriving DecidableEq, Repr

/-- `sessionService.recordAnswer(userId, answer)`: `null` (and no state
change) when the user has no session; otherwise pushes one `AnswerRecord`,
increments `currentQuestion` and adds `answer.weight || 1` to `score` when
`answer.isCorrect`. The single user's cache slot is the `Option Session`. -/
def recordAnswer (st : Option Session) (answer : AnswerInput) (now : String) :
    Option Session :=
  match st with
  | none => none
  | some session =>
      some { session with
        answers := session.answers ++
          [{ questionId := answer.questionId
             selectedOption := answer.selectedOption
             isCorrect := answer.isCorrect
             timestamp := now }]
        currentQuestion := session.currentQuestion + 1
        score :=
          if answer.isCorrect then session.score + jsOrNat answer.weight 1
          else session.score }

/-- `sessionService.isTestComplete(userId)`: `false` with no session, else
`session.currentQuestion >= session.questions.length`. -/
def isTestComplete (st : Option Session) : Bool :=
  match st with
  | none => false
  | some session => session.questions.length ≤ session.currentQuestion

/-- A `correct`/`total` counter pair, one cell of the category/level
breakdowns in `calculateAssessment`. -/
structure Tally where
  correct : Nat
  total : Nat
deriving DecidableEq, Repr

/-- The `categoryStats` object: one tally per valid category. -/
structure CategoryStats where
  vocabulary : Tally
  grammar : Tally
deriving DecidableEq, Repr

/-- Per-level data (`levelStats`, the weight table, the recommendation
table): one value per CEFR level A1..B2. -/
structure LevelTable (α : Type) where
  A1 : α
  A2 : α
  B1 : α
  B2 : α
deriving DecidableEq, Repr

/-- JS object lookup `table[level]` on a level-keyed object: `undefined`
(`none`) for any key other than the four levels. -/
def levelLookup {α : Type} (t : LevelTable α) (level : String) : Option α :=
  if level = "A1" then some t.A1
  else if level = "A2" then some t.A2
  else if level = "B1" then some t.B1
  else if level = "B2" then some t.B2
  else none

/-- JS object lookup `categoryStats[category]`. -/
def categoryLookup {α : Type} (vocabulary grammar : α) (category : String) :
    Option α :=
  if category = "vocabulary" then some vocabulary
  else if category = "grammar" then some grammar
  else none

/-- The parts of the assessment-service configuration the embedded code
reads: `scoring.weights`, the `max` bound of each `scoring.levelThresholds`
entry, and `recommendations`. -/
structure Config where
  weights : LevelTable Nat
  a1max : Int
  a2max : Int
  b1max : Int
  recommendations : LevelTable String
deriving DecidableEq, Repr

/-- `assessmentService.getDefaultConfig()`: weights {A1:1, A2:2, B1:3, B2:4},
thresholds max 25/50/75, and the four recommendation strings. -/
def getDefaultConfig : Config :=
  { weights := { A1 := 1, A2 := 2, B1 := 3, B2 := 4 }
    a1max := 25
    a2max := 50
    b1max := 75
    recommendations :=
      { A1 := "Focus on basic vocabulary and simple grammar structures."
        A2 := "Practice past and future tenses, expand your vocabulary."
        B1 := "Work on more complex grammar and improve fluency."
        B2 := "Focus on advanced vocabulary and complex sentence structures." } }

/-- `assessmentService.determineLevel(percentage)`: ordered
inclusive-upper-bound threshold chain over the configured `max` values. -/
def determineLevel (config : Config) (percentage : Int) : String :=
  if percentage ≤ config.a1max then "A1"
  else if percentage ≤ config.a2max then "A2"
  else if percentage ≤ config.b1max then "B1"
  else "B2"

/-- `helpers.getLevelFromScore(percentage)`: hard-coded threshold chain. -/
def getLevelFromScore (percentage : Int) : String :=
  if percentage ≤ 25 then "A1"
  else if percentage ≤ 50 then "A2"
  else if percentage ≤ 75 then "B1"
  else "B2"

/-- `helpers.calculatePercentage(value, total)`: 0 when `total` is 0, else
`Math.round((value / total) * 100)`. -/
def calculatePercentage (value total : Nat) : Int :=
  if total = 0 then 0 else jsRound ((value : ℚ) / (total : ℚ) * 100)

/-- `assessmentService.getRecommendation(level)`:
`config.recommendations[level] || "Keep practicing..."`. -/
def getRecommendation (config : Config) (level : String) : String :=
  jsOrStr (levelLookup config.recommendations level)
    "Keep practicing to improve your English skills!"

/-- Weight resolution inside `calculateAssessment`:
`question.weight || this.config.scoring.weights[question.level] || 1`. -/
def resolveWeight (config : Config) (question : Question) : Nat :=
  jsOrNat question.weight
    (jsOrNat (levelLookup config.weights question.level) 1)

/-- Tally update inside the answer loop: `total++`, and `correct++` when the
answer was correct. -/
def bumpTally (t : Tally) (isCorrect : Bool) : Tally :=
  { correct := if isCorrect then t.correct + 1 else t.correct
    total := t.total + 1 }

/-- `if (categoryStats[question.category]) { ... }`: update the looked-up
tally, skip silently on an unknown category key. -/
def updateCategoryStats (stats : CategoryStats) (category : String)
    (isCorrect : Bool) : CategoryStats :=
  if category = "vocabulary" then
    { stats with vocabulary := bumpTally stats.vocabulary isCorrect }
  else if category = "grammar" then
    { stats with grammar := bumpTally stats.grammar isCorrect }
  else stats

/-- `if (levelStats[question.level]) { ... }`: update the looked-up tally,
skip silently on an unknown level key. -/
def updateLevelStats (stats : LevelTable Tally) (level : String)
    (isCorrect : Bool) : LevelTable Tally :=
  if level = "A1" then { stats with A1 := bumpTally stats.A1 isCorrect }
  else if level = "A2" then { stats with A2 := bumpTally stats.A2 isCorrect }
  else if level = "B1" then { stats with B1 := bumpTally stats.B1 isCorrect }
  else if level = "B2" then { stats with B2 := bumpTally stats.B2 isCorrect }
  else stats

/-- Accumulator of the `for (const answer of answers)` loop in
`calculateAssessment`. -/
structure ScoreAcc where
  totalWeight : Nat
  earnedWeight : Nat
  categoryStats : CategoryStats
  levelStats : LevelTable Tally
deriving DecidableEq, Repr

/-- One iteration of the answer loop: find the question by id (skip the
answer when absent), resolve its weight, accumulate `totalWeight`, both
breakdowns, and `earnedWeight` when correct. -/
def scoreStep (config : Config) (questions : List Question) (acc : ScoreAcc)
    (answer : AnswerRecord) : ScoreAcc :=
  match questions.find? (fun q => q.id == answer.questionId) with
  | none => acc
  | some question =>
      let weight := resolveWeight config question
      { totalWeight := acc.totalWeight + weight
        earnedWeight :=
          if answer.isCorrect then acc.earnedWeight + weight
          else acc.earnedWeight
        categoryStats :=
          updateCategoryStats acc.categoryStats question.category
            answer.isCorrect
        levelStats :=
          updateLevelStats acc.levelStats question.level answer.isCorrect }

/-- The empty loop accumulator (`totalWeight = earnedWeight = 0`, all
tallies zero). -/
def initialScoreAcc : ScoreAcc :=
  { totalWeight := 0
    earnedWeight := 0
    categoryStats := { vocabulary := ⟨0, 0⟩, grammar := ⟨0, 0⟩ }
    levelStats := { A1 := ⟨0, 0⟩, A2 := ⟨0, 0⟩, B1 := ⟨0, 0⟩, B2 := ⟨0, 0⟩ } }

/-- `stats.total > 0 ? Math.round((stats.correct / stats.total) * 100) : 0`,
the percentage pattern used for the overall score and every breakdown. -/
def pctOf (part total : Nat) : Int :=
  if 0 < total then jsRound ((part : ℚ) / (total : ℚ) * 100) else 0

/-- The `categoryPercentages` object: one rounded percentage per category. -/
structure CategoryPercentages where
  vocabulary : Int
  grammar : Int
deriving DecidableEq, Repr

/-- The object returned by `assessmentService.calculateAssessment`. -/
structure Assessment where
  level : String
  percentageScore : Int
  totalQuestions : Nat
  correctAnswers : Nat
  categoryStats : CategoryStats
  categoryPercentages : CategoryPercentages
  levelStats : LevelTable Tally
  levelPercentages : LevelTable Int
  earnedWeight : Nat
  totalWeight : Nat
  recommendation : String
  completedAt : String
deriving DecidableEq, Repr

/-- `assessmentService.calculateAssessment(session, questions)`: loops over
`session.answers`, accumulates weights and breakdowns, derives
`percentageScore`, `level`, per-category and per-level percentages and the
recommendation. The wall clock read by `new Date().toISOString()` for
`completedAt` is passed explicitly as `now`. -/
def calculateAssessment (config : Config) (session : Session)
    (questions : List Question) (now : String) : Assessment :=
  let answers := session.answers
  let acc := answers.foldl (scoreStep config questions) initialScoreAcc
  let percentageScore := pctOf acc.earnedWeight acc.totalWeight
  let level := determineLevel config percentageScore
  { level := level
    percentageScore := percentageScore
    totalQuestions := answers.length
    correctAnswers := (answers.filter (fun a => a.isCorrect)).length
    categoryStats := acc.categoryStats
    categoryPercentages :=
      { vocabulary :=
          pctOf acc.categoryStats.vocabulary.correct
            acc.categoryStats.vocabulary.total
        grammar :=
          pctOf acc.categoryStats.grammar.correct
            acc.categoryStats.grammar.total }
    levelStats := acc.levelStats
    levelPercentages :=
      { A1 := pctOf acc.levelStats.A1.correct acc.levelStats.A1.total
        A2 := pctOf acc.levelStats.A2.correct acc.levelStats.A2.total
        B1 := pctOf acc.levelStats.B1.correct acc.levelStats.B1.total
        B2 := pctOf acc.levelStats.B2.correct acc.levelStats.B2.total }
    earnedWeight := acc.earnedWeight
    totalWeight := acc.totalWeight
    recommendation := getRecommendation config level
    completedAt := now }

/-- A question as it arrives from `JSON.parse` before validation: every
field may be missing (`undefined`). -/
structure RawQuestion where
  id : Option Int
  text : Option String
  options : Option (List String)
  correct : Option Int
  level : Option String
  category : Option String
deriving DecidableEq, Repr

/-- The `question.id || 'unknown'` interpolation used by validation error
messages (`0` is falsy in JS, hence also reported as `unknown`). -/
def rawIdString (q : RawQuestion) : String :=
  match q.id with
  | some i => if i = 0 then "unknown" else toString i
  | none => "unknown"

/-- The checks `questionService.validateQuestions` runs on one question, in
source order: the six required fields, then options length, then the correct
index bounds, then the level enum, then the category enum. -/
def validateQuestion (q : RawQuestion) : Except String Unit :=
  if q.id = none then
    .error ("Question " ++ rawIdString q ++ " missing required field: id")
  else if q.text = none then
    .error ("Question " ++ rawIdString q ++ " missing required field: text")
  else if q.options = none then
    .error ("Question " ++ rawIdString q ++ " missing required field: options")
  else if q.correct = none then
    .error ("Question " ++ rawIdString q ++ " missing required field: correct")
  else if q.level = none then
    .error ("Question " ++ rawIdString q ++ " missing required field: level")
  else if q.category = none then
    .error ("Question " ++ rawIdString q ++ " missing required field: category")
  else if (q.options.getD []).length ≠ 4 then
    .error ("Question " ++ rawIdString q ++ " must have exactly 4 options")
  else if q.correct.getD 0 < 0 ∨ 3 < q.correct.getD 0 then
    .error ("Question " ++ rawIdString q ++ " has invalid correct answer index")
  else if ¬ q.level.getD "" ∈ (["A1", "A2", "B1", "B2"] : List String) then
    .error ("Question " ++ rawIdString q ++ " has invalid level: " ++
      q.level.getD "")
  else if ¬ q.category.getD "" ∈ (["vocabulary", "grammar"] : List String) then
    .error ("Question " ++ rawIdString q ++ " has invalid category: " ++
      q.category.getD "")
  else .ok ()

/-- `questionService.validateQuestions()`: check each question in order,
throwing at the first violation. -/
def validateQuestions : List RawQuestion → Except String Unit
  | [] => .ok ()
  | q :: rest =>
      match validateQuestion q with
      | .error e => .error e
      | .ok _ => validateQuestions rest

/-- `questionService.loadQuestions()` as a transition on the service's
`this.questions` state: the parsed file's `questions` array (`parsed.questions
|| []`) is assigned to `this.questions` first, and only then validated; on a
validation error the wrapped error propagates but the assignment stays. The
result pairs the outcome with the new `this.questions` value, `prev` being
its value before the call. -/
def loadQuestions (parsed : Option (List RawQuestion))
    (_prev : List RawQuestion) : Except String Unit × List RawQuestion :=
  match validateQuestions (parsed.getD []) with
  | .ok _ => (.ok (), parsed.getD [])
  | .error e =>
      (.error ("Failed to load questions: " ++ e), parsed.getD [])

/-- The five validation rules of the specification for one question:
required fields present, exactly 4 options, correct index in 0..3, level in
the CEFR enum, category in the category enum. -/
def validRawQuestion (q : RawQuestion) : Bool :=
  q.id.isSome && q.text.isSome && q.options.isSome && q.correct.isSome &&
  q.level.isSome && q.category.isSome &&
  (q.options.getD []).length == 4 &&
  (0 ≤ q.correct.getD 0 && q.correct.getD 0 ≤ 3) &&
  (["A1", "A2", "B1", "B2"] : List String).contains (q.level.getD "") &&
  (["vocabulary", "grammar"] : List String).contains (q.category.getD "")

/-- One Fisher-Yates swap `[a[i], a[j]] = [a[j], a[i]]`; when either index is
out of range (never the case in the source loop) the list is unchanged. -/
def swapL {α : Type} (l : List α) (i j : Nat) : List α :=
  match l[i]?, l[j]? with
  | some a, some b => (l.set i b).set j a
  | _, _ => l

/-- The `for (let i = length - 1; i > 0; i--)` loop of
`questionService.shuffleArray`, with the loop counter as fuel: at counter
`i` swap positions `i` and `rand i`, where `rand i` models
`Math.floor(Math.random() * (i + 1))` (always in `[0, i]` for a genuine
`Math.random`, though no theorem below needs that). -/
def shuffleStep {α : Type} (rand : Nat → Nat) : Nat → List α → List α
  | 0, l => l
  | i + 1, l => shuffleStep rand i (swapL l (i + 1) (rand (i + 1)))

/-- `questionService.shuffleArray(array)`: copy, then run the downward swap
loop from index `length - 1`. -/
def shuffleArray {α : Type} (rand : Nat → Nat) (array : List α) : List α :=
  shuffleStep rand (array.length - 1) array

/-- `questionService.getQuestionsByLevel(level)`. -/
def getQuestionsByLevel (questions : List Question) (level : String) :
    List Question :=
  questions.filter (fun q => q.level == level)

/-- The `config` argument of `selectQuestionsForTest`: total count (default
20) and optional per-level quotas (`Object.entries` order as a list). -/
structure SelectConfig where
  totalQuestions : Nat
  questionsPerLevel : Option (List (String × Nat))
deriving Repr

/-- `questionService.selectQuestionsForTest(config)`: with explicit quotas
draw `count` from each quota level's shuffled pool; otherwise draw
`Math.floor(totalQuestions / 4)` from each of the four levels; finally
shuffle the concatenation. Each `shuffleArray` call gets its own random
stream (`randLevel k` for the `k`-th pool, `randFinal` for the final
shuffle), modelling consecutive draws from `Math.random`. The repository
list `questions` is only read, never written. -/
def selectQuestionsForTest (randLevel : Nat → Nat → Nat)
    (randFinal : Nat → Nat) (questions : List Question)
    (config : SelectConfig) : List Question :=
  let selectedQuestions :=
    match config.questionsPerLevel with
    | some quotas =>
        (quotas.enum.map (fun p =>
          (shuffleArray (randLevel p.1)
            (getQuestionsByLevel questions p.2.1)).take p.2.2)).flatten
    | none =>
        let levels : List String := ["A1", "A2", "B1", "B2"]
        let perLevel := config.totalQuestions / levels.length
        (levels.enum.map (fun p =>
          (shuffleArray (randLevel p.1)
            (getQuestionsByLevel questions p.2)).take perLevel)).flatten
  shuffleArray randFinal selectedQuestions

/-- Outcome tag of one `answer` callback event (which reply branch of
`callbackHandlers.handleAnswer` ran). -/
inductive AnswerOutcome where
  | noSession
  | notInProgress
  | invalidQuestion
  | checkFailed (message : String)
  | recorded
deriving DecidableEq, Repr

/-- The session-state core of `callbackHandlers.handleAnswer(chatId, userId,
data, messageId)` for an already-parsed `answer_questionId_selectedOption`
event: reject when there is no session, when the session is not
`in_progress`, or when `questionId` differs from the current question's id;
otherwise `checkAnswer` against the repository (a throw is caught upstream,
leaving the session untouched), then `recordAnswer`; if the test is then
complete, `completeTest` marks the session completed, clears it and stores a
fresh `ready` session (`createSession(userId, session.username)`). -/
def handleAnswer (repo : List Question) (st : Option Session)
    (questionId : Int) (selectedOption : Int) (now : String) :
    Option Session × AnswerOutcome :=
  match st with
  | none => (none, .noSession)
  | some session =>
      if session.state ≠ "in_progress" then (some session, .notInProgress)
      else
        match session.questions[session.currentQuestion]? with
        | none => (some session, .invalidQuestion)
        | some currentQuestion =>
            if currentQuestion.id ≠ questionId then
              (some session, .invalidQuestion)
            else
              match checkAnswer repo questionId selectedOption with
              | .error e => (some session, .checkFailed e)
              | .ok result =>
                  match recordAnswer (some session)
                      { questionId := questionId
                        selectedOption := selectedOption
                        isCorrect := result.isCorrect
                        weight := some result.weight } now with
                  | none => (none, .recorded)
                  | some recorded =>
                      if isTestComplete (some recorded) then
                        (some (createSession recorded.userId
                          recorded.username now), .recorded)
                      else (some recorded, .recorded)

/-! ## Claim C10: `isTestComplete` on absent sessions and empty question lists -/

/-- C10: `isTestComplete` returns `false` for every user with no session and
`true` for every session whose questions list is empty — in particular for a
freshly created `ready` session, whose cursor `0` already reaches
`questions.length = 0`. -/
theorem isTestComplete_absent_and_empty :
    isTestComplete none = false ∧
    (∀ s : Session, s.questions = [] → isTestComplete (some s) = true) ∧
    (∀ (userId : Int) (username : Option String) (now : String),
      isTestComplete (some (createSession userId username now)) = true) := by
  refine ⟨rfl, ?_, ?_⟩
  · intro s hs
    simp [isTestComplete, hs]
  · intro userId username now
    rfl

/-- Witness for C10 at a concrete fresh session. -/
theorem isTestComplete_absent_and_empty_witness :
    isTestComplete (some (createSession 1 (some "u") "t")) = true :=
  isTestComplete_absent_and_empty.2.1 (createSession 1 (some "u") "t") rfl

/-! ## Claim C4: default level thresholds -/

/-- C4: under the default thresholds `determineLevel` maps a percentage by
ordered inclusive upper bounds (≤25→A1, ≤50→A2, ≤75→B1, else B2), the
helper `getLevelFromScore` agrees with it, and the six boundary points 25,
26, 50, 51, 75, 76 map to A1, A2, A2, B1, B1, B2 respectively. -/
theorem determineLevel_default_boundaries :
    (∀ p : Int,
      (determineLevel getDefaultConfig p = "A1" ↔ p ≤ 25) ∧
      (determineLevel getDefaultConfig p = "A2" ↔ 25 < p ∧ p ≤ 50) ∧
      (determineLevel getDefaultConfig p = "B1" ↔ 50 < p ∧ p ≤ 75) ∧
      (determineLevel getDefaultConfig p = "B2" ↔ 75 < p) ∧
      getLevelFromScore p = determineLevel getDefaultConfig p) ∧
    determineLevel getDefaultConfig 25 = "A1" ∧
    determineLevel getDefaultConfig 26 = "A2" ∧
    determineLevel getDefaultConfig 50 = "A2" ∧
    determineLevel getDefaultConfig 51 = "B1" ∧
    determineLevel getDefaultConfig 75 = "B1" ∧
    determineLevel getDefaultConfig 76 = "B2" := by
  constructor
  · intro p
    simp only [determineLevel, getLevelFromScore, getDefaultConfig]
    refine ⟨?_, ?_, ?_, ?_, ?_⟩ <;>
      first
      | trivial
      | (split_ifs <;> simp_all <;> omega)
  · exact ⟨rfl, rfl, rfl, rfl, rfl, rfl⟩

/-! ## Claim C2: `calculateAssessment` and repeated calls -/

/-- C2 counterexample: `calculateAssessment` reads the wall clock for its
`completedAt` field, so two calls on the very same session/question pair at
different instants return different outputs — it is not a pure function of
its two arguments. -/
theorem calculateAssessment_differs_across_calls :
    calculateAssessment getDefaultConfig (createSession 1 none "t0") []
        "2024-01-01T00:00:00.000Z" ≠
      calculateAssessment getDefaultConfig (createSession 1 none "t0") []
        "2024-01-01T00:00:01.000Z" := by
  intro h
  have h2 : ("2024-01-01T00:00:00.000Z" : String) = "2024-01-01T00:00:01.000Z" :=
    congrArg Assessment.completedAt h
  exact absurd h2 (by decide)

/-- C2 amended: apart from the `completedAt` timestamp the assessment is
determined by the configuration, session and question set alone — calls at
two different instants agree on every other field (and the function has no
side effects, being a pure function of its arguments including the clock). -/
theorem calculateAssessment_pure_besides_timestamp
    (config : Config) (session : Session) (questions : List Question)
    (t1 t2 : String) :
    calculateAssessment config session questions t1 =
      { calculateAssessment config session questions t2 with
        completedAt := t1 } :=
  rfl

/-! ## Claim C1: `checkAnswer` on known ids -/

/-- Concrete question for claim C1: level B2, no explicit weight. -/
def questionB2NoWeight : Question :=
  { id := 1, text := "q", options := ["a", "b", "c", "d"], correct := 0,
    level := "B2", category := "grammar", weight := none }

/-- C1 counterexample: for a weightless B2 question `checkAnswer` resolves
the weight to `1` (`question.weight || 1`), not to the level-keyed default
`4` demanded by the claim. -/
theorem checkAnswer_weight_not_level_defaulted :
    checkAnswer [questionB2NoWeight] 1 0 =
      .ok { isCorrect := true, correctAnswer := 0, correctOption := some "a",
            selectedOption := 0, weight := 1 } ∧
    getDefaultConfig.weights.B2 = 4 ∧ (1 : Nat) ≠ 4 :=
  ⟨rfl, rfl, by decide⟩

/-- C1 amended: for every known question id `checkAnswer` returns whether
the selected index equals the question's correct index, the correct option's
display text, and a weight resolved as the explicit `weight` field when
present and non-zero and `1` otherwise; the level-keyed default table
{A1:1, A2:2, B1:3, B2:4} is not consulted by `checkAnswer` (only
`calculateAssessment` uses it). -/
theorem checkAnswer_known_id_spec
    (questions : List Question) (questionId selectedOption : Int)
    (q : Question) (h : getQuestionById questions questionId = some q) :
    checkAnswer questions questionId selectedOption =
      .ok { isCorrect := q.correct == selectedOption
            correctAnswer := q.correct
            correctOption :=
              if q.correct < 0 then none else q.options[q.correct.toNat]?
            selectedOption := selectedOption
            weight := jsOrNat q.weight 1 } ∧
    ((q.correct == selectedOption) = true ↔ q.correct = selectedOption) := by
  constructor
  · unfold checkAnswer
    rw [h]
  · simp

/-- Witness for C1 at a concrete question and a wrong selected index. -/
theorem checkAnswer_known_id_spec_witness :
    checkAnswer [questionB2NoWeight] 1 2 =
      .ok { isCorrect := false, correctAnswer := 0, correctOption := some "a",
            selectedOption := 2, weight := 1 } :=
  (checkAnswer_known_id_spec [questionB2NoWeight] 1 2 questionB2NoWeight
    rfl).1

/-! ## Claim C3: `recordAnswer` -/

/-- C3 counterexample: two `recordAnswer` calls differing only in the
answer's weight append the very same `AnswerRecord` while producing
different scores, so the appended record does not contain the weight the
claim says is copied into it (the record holds only `questionId`,
`selectedOption`, `isCorrect`, `timestamp`). -/
theorem recordAnswer_record_has_no_weight :
    (recordAnswer (some (createSession 7 none "t0"))
        { questionId := 11, selectedOption := 2, isCorrect := true,
          weight := some 4 } "t1").map Session.answers =
      (recordAnswer (some (createSession 7 none "t0"))
        { questionId := 11, selectedOption := 2, isCorrect := true,
          weight := some 1 } "t1").map Session.answers ∧
    (recordAnswer (some (createSession 7 none "t0"))
        { questionId := 11, selectedOption := 2, isCorrect := true,
          weight := some 4 } "t1").map Session.score = some 4 ∧
    (recordAnswer (some (createSession 7 none "t0"))
        { questionId := 11, selectedOption := 2, isCorrect := true,
          weight := some 1 } "t1").map Session.score = some 1 ∧
    (4 : Nat) ≠ 1 :=
  ⟨rfl, rfl, rfl, by decide⟩

/-- C3 amended: with no session `recordAnswer` returns `null` and stores
nothing; otherwise it appends exactly one record holding `questionId`,
`selectedIndex`, `isCorrect` and a timestamp (the weight is not stored in
the record), increments `currentQuestion` by one, adds `answer.weight || 1`
to `score` exactly when `isCorrect` (score unchanged otherwise), and leaves
every other session field unchanged. -/
theorem recordAnswer_spec :
    (∀ (answer : AnswerInput) (now : String),
      recordAnswer none answer now = none) ∧
    (∀ (session : Session) (answer : AnswerInput) (now : String),
      ∃ s2 : Session, recordAnswer (some session) answer now = some s2 ∧
        s2.answers = session.answers ++
          [{ questionId := answer.questionId
             selectedOption := answer.selectedOption
             isCorrect := answer.isCorrect
             timestamp := now }] ∧
        s2.answers.length = session.answers.length + 1 ∧
        s2.currentQuestion = session.currentQuestion + 1 ∧
        s2.score = (if answer.isCorrect then
          session.score + jsOrNat answer.weight 1 else session.score) ∧
        (answer.isCorrect = false → s2.score = session.score) ∧
        s2.userId = session.userId ∧ s2.username = session.username ∧
        s2.questions = session.questions ∧ s2.state = session.state) := by
  refine ⟨fun _ _ => rfl, fun session answer now => ⟨_, rfl, rfl, by simp,
    rfl, rfl, ?_, rfl, rfl, rfl, rfl⟩⟩
  intro h
  simp [h]

/-- Witness for C3: the inner implication discharged on an incorrect answer,
whose recording leaves the score at 0. -/
theorem recordAnswer_spec_witness :
    (recordAnswer (some (createSession 3 none "t0"))
      { questionId := 5, selectedOption := 1, isCorrect := false,
        weight := some 2 } "t1").map Session.score = some 0 := by
  obtain ⟨s2, he, _, _, _, _, hsc, _⟩ :=
    recordAnswer_spec.2 (createSession 3 none "t0")
      { questionId := 5, selectedOption := 1, isCorrect := false,
        weight := some 2 } "t1"
  rw [he]
  simpa using hsc rfl

/-! ## Claim C9: unknown question ids -/

/-- C9: on an unknown question id `getQuestionById` is `null` rather than a
throw, `checkAnswer` throws the not-found error, and the answer handler then
leaves the session slot exactly as it was — the throw is caught before
`recordAnswer` runs, and the question set is only read. -/
theorem checkAnswer_unknown_id
    (repo : List Question) (questionId selectedOption : Int)
    (h : getQuestionById repo questionId = none) :
    checkAnswer repo questionId selectedOption =
      .error ("Question " ++ toString questionId ++ " not found") ∧
    (∀ (st : Option Session) (now : String),
      (handleAnswer repo st questionId selectedOption now).1 = st) := by
  have hcheck : checkAnswer repo questionId selectedOption =
      .error ("Question " ++ toString questionId ++ " not found") := by
    unfold checkAnswer
    rw [h]
  refine ⟨hcheck, ?_⟩
  intro st now
  cases st with
  | none => rfl
  | some session =>
      simp only [handleAnswer]
      split_ifs with h1
      · rfl
      · split
        · rfl
        · split_ifs with h2
          · rfl
          · rw [hcheck]

/-- Witness for C9 on the empty repository. -/
theorem checkAnswer_unknown_id_witness :
    checkAnswer [] 5 0 =
      .error ("Question " ++ toString (5 : Int) ++ " not found") ∧
    (handleAnswer [] (some (createSession 2 none "t")) 5 0 "t2").1 =
      some (createSession 2 none "t") :=
  ⟨(checkAnswer_unknown_id [] 5 0 rfl).1,
   (checkAnswer_unknown_id [] 5 0 rfl).2 (some (createSession 2 none "t"))
     "t2"⟩

/-! ## Claim C5: the percentage formula -/

/-- `Math.round` of a ratio of naturals in closed natural-division form:
for `t ≠ 0`, `round(100 e / t) = (200 e + t) / (2 t)`. -/
theorem jsRound_natDiv (e t : Nat) (ht : t ≠ 0) :
    jsRound ((100 * e : ℚ) / t) = ((200 * e + t) / (2 * t) : Nat) := by
  unfold jsRound
  have ht' : (t : ℚ) ≠ 0 := Nat.cast_ne_zero.2 ht
  have h1 : (100 * e : ℚ) / t + 1 / 2 =
      (((200 * e + t : ℕ) : ℤ) : ℚ) / ((2 * t : ℕ) : ℚ) := by
    push_cast
    field_simp
    ring
  rw [h1, Rat.floor_intCast_div_natCast]
  norm_cast

/-- `pctOf` rewritten to the specification's orientation
`round(100 * part / total)` with the zero-total guard. -/
theorem pctOf_eq (e t : Nat) :
    pctOf e t = if t = 0 then 0 else jsRound ((100 * e : ℚ) / t) := by
  unfold pctOf
  rcases Nat.eq_zero_or_pos t with h | h
  · simp [h]
  · rw [if_pos h, if_neg (Nat.pos_iff_ne_zero.1 h)]
    congr 1
    ring

/-- `pctOf` in exact natural-number arithmetic. -/
theorem pctOf_natDiv (e t : Nat) :
    pctOf e t = if t = 0 then 0 else ((200 * e + t) / (2 * t) : Nat) := by
  rw [pctOf_eq]
  rcases Nat.eq_zero_or_pos t with h | h
  · simp [h]
  · rw [if_neg (Nat.pos_iff_ne_zero.1 h), if_neg (Nat.pos_iff_ne_zero.1 h),
      jsRound_natDiv e t (Nat.pos_iff_ne_zero.1 h)]

/-- The four questions of the C5 scenario, with explicit weights 1..4. -/
def scenarioQuestions : List Question :=
  [{ id := 1, text := "q1", options := ["a", "b", "c", "d"], correct := 0,
     level := "A1", category := "vocabulary", weight := some 1 },
   { id := 2, text := "q2", options := ["a", "b", "c", "d"], correct := 0,
     level := "A2", category := "grammar", weight := some 2 },
   { id := 3, text := "q3", options := ["a", "b", "c", "d"], correct := 0,
     level := "B1", category := "vocabulary", weight := some 3 },
   { id := 4, text := "q4", options := ["a", "b", "c", "d"], correct := 0,
     level := "B2", category := "grammar", weight := some 4 }]

/-- The C5 scenario session: four answers with correctness pattern
true/false/true/true. -/
def scenarioSession : Session :=
  { createSession 1 none "t0" with
    answers :=
      [{ questionId := 1, selectedOption := 0, isCorrect := true,
         timestamp := "t1" },
       { questionId := 2, selectedOption := 1, isCorrect := false,
         timestamp := "t2" },
       { questionId := 3, selectedOption := 0, isCorrect := true,
         timestamp := "t3" },
       { questionId := 4, selectedOption := 0, isCorrect := true,
         timestamp := "t4" }] }

/-- C5: `percentageScore` equals `round(100 * earnedWeight / totalWeight)`
over exact integer weights (equivalently `(200 e + t) / (2 t)` in natural
division), and is 0 whenever `totalWeight` is 0; the 4-answer scenario with
weights [1,2,3,4] and correctness [true,false,true,true] yields
`earnedWeight = 8`, `totalWeight = 10`, `percentageScore = 80`. -/
theorem calculateAssessment_percentage_formula :
    (∀ (config : Config) (session : Session) (questions : List Question)
        (now : String),
      (calculateAssessment config session questions now).percentageScore =
        if (calculateAssessment config session questions now).totalWeight = 0
        then 0
        else jsRound
          ((100 * ((calculateAssessment config session questions
              now).earnedWeight) : ℚ) /
            ((calculateAssessment config session questions
              now).totalWeight))) ∧
    (∀ (config : Config) (session : Session) (questions : List Question)
        (now : String),
      (calculateAssessment config session questions now).percentageScore =
        if (calculateAssessment config session questions now).totalWeight = 0
        then 0
        else ((200 *
            (calculateAssessment config session questions now).earnedWeight +
            (calculateAssessment config session questions now).totalWeight) /
          (2 * (calculateAssessment config session questions
            now).totalWeight) : Nat)) ∧
    (calculateAssessment getDefaultConfig scenarioSession scenarioQuestions
        "t5").earnedWeight = 8 ∧
    (calculateAssessment getDefaultConfig scenarioSession scenarioQuestions
        "t5").totalWeight = 10 ∧
    (calculateAssessment getDefaultConfig scenarioSession scenarioQuestions
        "t5").percentageScore = 80 := by
  refine ⟨?_, ?_, ?_, ?_, ?_⟩
  · intro config session questions now
    exact pctOf_eq _ _
  · intro config session questions now
    exact pctOf_natDiv _ _
  · decide
  · decide
  · show pctOf 8 10 = 80
    rw [pctOf_natDiv]
    norm_num

/-! ## Claim C6: question-bank validation and loading -/

/-- The specification's five validation rules for one raw question. -/
def ValidRawQuestion (q : RawQuestion) : Prop :=
  q.id ≠ none ∧ q.text ≠ none ∧ q.options ≠ none ∧ q.correct ≠ none ∧
  q.level ≠ none ∧ q.category ≠ none ∧
  (q.options.getD []).length = 4 ∧
  0 ≤ q.correct.getD 0 ∧ q.correct.getD 0 ≤ 3 ∧
  q.level.getD "" ∈ (["A1", "A2", "B1", "B2"] : List String) ∧
  q.category.getD "" ∈ (["vocabulary", "grammar"] : List String)

instance : DecidablePred ValidRawQuestion := fun q => by
  unfold ValidRawQuestion
  infer_instance

set_option maxHeartbeats 2000000 in
/-- `validateQuestion` succeeds exactly on questions satisfying all five
rules. -/
theorem validateQuestion_ok_iff (q : RawQuestion) :
    validateQuestion q = .ok () ↔ ValidRawQuestion q := by
  unfold validateQuestion ValidRawQuestion
  split_ifs with h1 h2 h3 h4 h5 h6 h7 h8 h9 h10
  all_goals constructor
  all_goals
    first
    | (intro h
       exact h.elim)
    | (rintro ⟨v1, v2, v3, v4, v5, v6, v7, v8a, v8b, v9, v10⟩
       first
       | exact absurd h1 v1
       | exact absurd h2 v2
       | exact absurd h3 v3
       | exact absurd h4 v4
       | exact absurd h5 v5
       | exact absurd h6 v6
       | exact absurd v7 h7
       | omega
       | exact absurd v9 h9
       | exact absurd v10 h10)
    | (intro h
       exact ⟨h1, h2, h3, h4, h5, h6, by omega, by omega, by omega, h9, h10⟩)
    | (intro h
       rfl)

set_option maxHeartbeats 2000000 in
/-- Every `validateQuestion` error message starts with
`"Question " ++ rawIdString q`. -/
theorem validateQuestion_error_names_id (q : RawQuestion) (e : String)
    (he : validateQuestion q = .error e) :
    ∃ suffix, e = "Question " ++ rawIdString q ++ suffix := by
  unfold validateQuestion at he
  split_ifs at he
  all_goals cases he
  all_goals
    first
    | exact ⟨" missing required field: id", rfl⟩
    | exact ⟨" missing required field: text", rfl⟩
    | exact ⟨" missing required field: options", rfl⟩
    | exact ⟨" missing required field: correct", rfl⟩
    | exact ⟨" missing required field: level", rfl⟩
    | exact ⟨" missing required field: category", rfl⟩
    | exact ⟨" must have exactly 4 options", rfl⟩
    | exact ⟨" has invalid correct answer index", rfl⟩
    | exact ⟨" has invalid level: " ++ q.level.getD "",
        String.append_assoc ("Question " ++ rawIdString q)
          " has invalid level: " (q.level.getD "")⟩
    | exact ⟨" has invalid category: " ++ q.category.getD "",
        String.append_assoc ("Question " ++ rawIdString q)
          " has invalid category: " (q.category.getD "")⟩

/-- `validateQuestions` succeeds exactly on banks where every question
satisfies all five rules. -/
theorem validateQuestions_ok_iff (qs : List RawQuestion) :
    validateQuestions qs = .ok () ↔ ∀ q ∈ qs, ValidRawQuestion q := by
  induction qs with
  | nil => simp [validateQuestions]
  | cons q rest ih =>
      cases hv : validateQuestion q with
      | error e =>
          simp only [validateQuestions, hv]
          constructor
          · intro h
            cases h
          · intro hall
            have := (validateQuestion_ok_iff q).2 (hall q (by simp))
            rw [hv] at this
            cases this
      | ok u =>
          cases u
          simp only [validateQuestions, hv, ih]
          constructor
          · intro hall r hr
            rcases List.mem_cons.1 hr with rfl | hr
            · exact (validateQuestion_ok_iff r).1 hv
            · exact hall r hr
          · intro hall r hr
            exact hall r (List.mem_cons_of_mem q hr)

/-- Validation stops at the first violating question: a bank whose prefix is
all valid fails with precisely the first invalid question's error. -/
theorem validateQuestions_first_error (q : RawQuestion) (e : String)
    (he : validateQuestion q = .error e) (pre post : List RawQuestion)
    (hpre : ∀ p ∈ pre, ValidRawQuestion p) :
    validateQuestions (pre ++ q :: post) = .error e := by
  induction pre with
  | nil =>
      simp only [List.nil_append, validateQuestions, he]
  | cons p rest ih =>
      have hp : validateQuestion p = .ok () :=
        (validateQuestion_ok_iff p).2 (hpre p (List.mem_cons_self p rest))
      simp only [List.cons_append, validateQuestions, hp]
      exact ih (fun x hx => hpre x (List.mem_cons_of_mem p hx))

/-- C6 counterexample: loading a bank whose only question has an
out-of-range correct index fails with an error naming the question id, yet
the service's question list has already been replaced by the invalid bank
rather than left as it was — the load is not all-or-nothing with respect to
the stored state. -/
theorem loadQuestions_failure_keeps_invalid_state :
    (loadQuestions
        (some [{ id := some 2, text := some "t",
                 options := some ["a", "b", "c", "d"], correct := some 9,
                 level := some "A1", category := some "grammar" }])
        [{ id := some 1, text := some "t",
           options := some ["a", "b", "c", "d"], correct := some 0,
           level := some "A1", category := some "grammar" }]).1 =
      .error
        "Failed to load questions: Question 2 has invalid correct answer index" ∧
    (loadQuestions
        (some [{ id := some 2, text := some "t",
                 options := some ["a", "b", "c", "d"], correct := some 9,
                 level := some "A1", category := some "grammar" }])
        [{ id := some 1, text := some "t",
           options := some ["a", "b", "c", "d"], correct := some 0,
           level := some "A1", category := some "grammar" }]).2 =
      [{ id := some 2, text := some "t",
         options := some ["a", "b", "c", "d"], correct := some 9,
         level := some "A1", category := some "grammar" }] ∧
    [({ id := some 2, text := some "t",
        options := some ["a", "b", "c", "d"], correct := some 9,
        level := some "A1", category := some "grammar" } : RawQuestion)] ≠
      [{ id := some 1, text := some "t",
         options := some ["a", "b", "c", "d"], correct := some 0,
         level := some "A1", category := some "grammar" }] :=
  ⟨rfl, rfl, by decide⟩

/-- C6 amended: a load succeeds iff every question of the parsed bank
satisfies all five validation rules; any violation produces an error naming
the offending question id (via `question.id || 'unknown'`) and validation
stops at the first violating question — but the service's `this.questions`
is assigned the parsed bank before validation, so a failed load leaves the
new (invalid) bank loaded instead of leaving nothing changed. -/
theorem loadQuestions_spec :
    (∀ (parsed : Option (List RawQuestion)) (prev : List RawQuestion),
      (loadQuestions parsed prev).1 = .ok () ↔
        ∀ q ∈ parsed.getD [], ValidRawQuestion q) ∧
    (∀ (parsed : Option (List RawQuestion)) (prev : List RawQuestion),
      (loadQuestions parsed prev).2 = parsed.getD []) ∧
    (∀ (q : RawQuestion) (e : String), validateQuestion q = .error e →
      ∃ suffix, e = "Question " ++ rawIdString q ++ suffix) ∧
    (∀ (q : RawQuestion) (e : String) (pre post : List RawQuestion),
      validateQuestion q = .error e → (∀ p ∈ pre, ValidRawQuestion p) →
      validateQuestions (pre ++ q :: post) = .error e) := by
  refine ⟨?_, ?_, validateQuestion_error_names_id, ?_⟩
  · intro parsed prev
    cases hv : validateQuestions (parsed.getD []) with
    | ok u =>
        cases u
        simp only [loadQuestions, hv]
        simpa using (validateQuestions_ok_iff (parsed.getD [])).1 hv
    | error e =>
        simp only [loadQuestions, hv]
        constructor
        · intro h
          cases h
        · intro hall
          have := (validateQuestions_ok_iff (parsed.getD [])).2 hall
          rw [hv] at this
          cases this
  · intro parsed prev
    cases hv : validateQuestions (parsed.getD []) with
    | ok u => simp [loadQuestions, hv]
    | error e => simp [loadQuestions, hv]
  · intro q e pre post he hpre
    exact validateQuestions_first_error q e he pre post hpre

/-- Witness for C6: a one-question valid bank loads successfully, and a
bank with a valid question followed by an invalid one fails with exactly the
invalid question's error. -/
theorem loadQuestions_spec_witness :
    (loadQuestions
        (some [{ id := some 1, text := some "t",
                 options := some ["a", "b", "c", "d"], correct := some 0,
                 level := some "A1", category := some "grammar" }]) []).1 =
      .ok () ∧
    validateQuestions
        ([{ id := some 1, text := some "t",
            options := some ["a", "b", "c", "d"], correct := some 0,
            level := some "A1", category := some "grammar" }] ++
          { id := some 2, text := some "t",
            options := some ["a", "b", "c", "d"], correct := some 9,
            level := some "A1", category := some "grammar" } :: []) =
      .error
        ("Question " ++ toString (2 : Int) ++
          " has invalid correct answer index") :=
  ⟨(loadQuestions_spec.1
      (some [{ id := some 1, text := some "t",
               options := some ["a", "b", "c", "d"], correct := some 0,
               level := some "A1", category := some "grammar" }]) []).2
      (by decide),
   loadQuestions_spec.2.2.2
     { id := some 2, text := some "t",
       options := some ["a", "b", "c", "d"], correct := some 9,
       level := some "A1", category := some "grammar" }
     ("Question " ++ toString (2 : Int) ++
       " has invalid correct answer index")
     [{ id := some 1, text := some "t",
        options := some ["a", "b", "c", "d"], correct := some 0,
        level := some "A1", category := some "grammar" }] []
     rfl (by decide)⟩

/-! ## Claim C8: double submission -/

/-- Entries at different positions of a list with pairwise-distinct images
have distinct images. -/
theorem nodup_map_getElem?_ne {α β : Type} (f : α → β) {l : List α}
    (h : (l.map f).Nodup) {i j : Nat} (hij : i ≠ j) {a b : α}
    (ha : l[i]? = some a) (hb : l[j]? = some b) : f a ≠ f b := by
  obtain ⟨hi, hae⟩ := List.getElem?_eq_some.1 ha
  obtain ⟨hj, hbe⟩ := List.getElem?_eq_some.1 hb
  intro hfe
  apply hij
  have hi' : i < (l.map f).length := by simpa using hi
  have hj' : j < (l.map f).length := by simpa using hj
  have hmap : (l.map f).get ⟨i, hi'⟩ = (l.map f).get ⟨j, hj'⟩ := by
    simp only [List.get_eq_getElem, List.getElem_map]
    rw [hae, hbe]
    exact hfe
  exact congrArg Fin.val (h.get_inj_iff.1 hmap)

/-- C8: two identical answer events processed back-to-back record exactly
once. Given an in-progress session whose current question carries the
submitted id (and a question list without duplicate ids, as produced by
selection from a validly-idd bank), the first event is recorded, and the
second event leaves the stored session untouched and is not recorded: after
the first event either the session was completed and replaced by a fresh
`ready` session (rejected as not in progress) or the cursor moved past the
question, whose id no longer matches. -/
theorem handleAnswer_double_submission
    (repo : List Question) (session : Session)
    (questionId selectedOption : Int) (t1 t2 : String) (cq : Question)
    (r : CheckResult)
    (hstate : session.state = "in_progress")
    (hcq : session.questions[session.currentQuestion]? = some cq)
    (hid : cq.id = questionId)
    (hnodup : (session.questions.map Question.id).Nodup)
    (hcheck : checkAnswer repo questionId selectedOption = .ok r) :
    (handleAnswer repo (some session) questionId selectedOption t1).2 =
      .recorded ∧
    (handleAnswer repo
        (handleAnswer repo (some session) questionId selectedOption t1).1
        questionId selectedOption t2).1 =
      (handleAnswer repo (some session) questionId selectedOption t1).1 ∧
    (handleAnswer repo
        (handleAnswer repo (some session) questionId selectedOption t1).1
        questionId selectedOption t2).2 ≠ .recorded := by
  have hne : ¬ session.state ≠ "in_progress" := by
    rw [hstate]
    exact fun h => h rfl
  have hfirst : handleAnswer repo (some session) questionId selectedOption
      t1 =
      (if isTestComplete (some { session with
          answers := session.answers ++
            [{ questionId := questionId, selectedOption := selectedOption,
               isCorrect := r.isCorrect, timestamp := t1 }]
          currentQuestion := session.currentQuestion + 1
          score := if r.isCorrect then
              session.score + jsOrNat (some r.weight) 1
            else session.score }) then
        (some (createSession session.userId session.username t1),
          .recorded)
      else
        (some { session with
          answers := session.answers ++
            [{ questionId := questionId, selectedOption := selectedOption,
               isCorrect := r.isCorrect, timestamp := t1 }]
          currentQuestion := session.currentQuestion + 1
          score := if r.isCorrect then
              session.score + jsOrNat (some r.weight) 1
            else session.score }, .recorded)) := by
    simp only [handleAnswer, hcq, hid, hcheck, recordAnswer, if_neg hne]
    simp
  rw [hfirst]
  by_cases hcomp : isTestComplete (some { session with
      answers := session.answers ++
        [{ questionId := questionId, selectedOption := selectedOption,
           isCorrect := r.isCorrect, timestamp := t1 }]
      currentQuestion := session.currentQuestion + 1
      score := if r.isCorrect then
          session.score + jsOrNat (some r.weight) 1
        else session.score }) = true
  · rw [if_pos hcomp]
    refine ⟨rfl, ?_, ?_⟩ <;>
      simp [handleAnswer, createSession]
  · rw [if_neg hcomp]
    have hlt : session.currentQuestion + 1 < session.questions.length := by
      simp only [isTestComplete, decide_eq_true_eq] at hcomp
      omega
    obtain ⟨cq2, hcq2⟩ : ∃ cq2,
        session.questions[session.currentQuestion + 1]? = some cq2 :=
      ⟨_, List.getElem?_eq_getElem hlt⟩
    have hne2 : cq2.id ≠ questionId := by
      rw [← hid]
      exact nodup_map_getElem?_ne Question.id hnodup (by omega) hcq2 hcq
    refine ⟨rfl, ?_, ?_⟩ <;>
      simp [handleAnswer, hstate, hcq2, hne2]

/-- Concrete two-question repository for the C8 witness. -/
def c8Repo : List Question :=
  [{ id := 1, text := "q1", options := ["a", "b", "c", "d"], correct := 0,
     level := "A1", category := "grammar", weight := some 1 },
   { id := 2, text := "q2", options := ["a", "b", "c", "d"], correct := 1,
     level := "A2", category := "grammar", weight := some 2 }]

/-- Concrete in-progress session over `c8Repo` for the C8 witness. -/
def c8Session : Session :=
  { createSession 9 none "t0" with
    state := "in_progress"
    questions := c8Repo }

/-- Witness for C8 at the concrete session: the first of two identical
answer events is recorded and the second is rejected without touching the
stored session. -/
theorem handleAnswer_double_submission_witness :
    (handleAnswer c8Repo (some c8Session) 1 0 "t1").2 = .recorded ∧
    (handleAnswer c8Repo (handleAnswer c8Repo (some c8Session) 1 0 "t1").1
        1 0 "t2").1 =
      (handleAnswer c8Repo (some c8Session) 1 0 "t1").1 ∧
    (handleAnswer c8Repo (handleAnswer c8Repo (some c8Session) 1 0 "t1").1
        1 0 "t2").2 ≠ .recorded :=
  handleAnswer_double_submission c8Repo c8Session 1 0 "t1" "t2"
    { id := 1, text := "q1", options := ["a", "b", "c", "d"], correct := 0,
      level := "A1", category := "grammar", weight := some 1 }
    { isCorrect := true, correctAnswer := 0, correctOption := some "a",
      selectedOption := 0, weight := 1 }
    rfl rfl rfl (by decide) rfl

/-! ## Claim C7: default selection of 20 questions -/

/-- Consing `x` at position `k` of a list holding `b` there permutes with
consing `b` onto the updated list. -/
theorem perm_cons_set {α : Type} (x : α) :
    ∀ (xs : List α) (k : Nat) (b : α), xs[k]? = some b →
      List.Perm (x :: xs) (b :: xs.set k x)
  | [], k, b, h => by simp at h
  | y :: ys, 0, b, h => by
      obtain rfl : y = b := by simpa using h
      simpa using List.Perm.swap y x ys
  | y :: ys, k + 1, b, h => by
      have h' : ys[k]? = some b := by simpa using h
      have ih := perm_cons_set x ys k b h'
      exact (List.Perm.swap y x ys).trans
        ((ih.cons y).trans (List.Perm.swap b y (ys.set k x)))

/-- A Fisher-Yates swap permutes the list (and is the identity when an
index is out of range). -/
theorem swapL_perm {α : Type} (l : List α) (i j : Nat) :
    List.Perm (swapL l i j) l := by
  unfold swapL
  cases hi : l[i]? with
  | none => exact List.Perm.refl l
  | some a =>
      cases hj : l[j]? with
      | none => exact List.Perm.refl l
      | some b =>
          have hj' : (l.set i b)[j]? = some b := by
            by_cases hij : i = j
            · subst hij
              have hlt : i < l.length := (List.getElem?_eq_some.1 hi).1
              simp [List.getElem?_set_self hlt]
            · rw [List.getElem?_set_ne hij]
              exact hj
          have p1 : List.Perm (b :: l) (a :: l.set i b) :=
            perm_cons_set b l i a hi
          have p2 : List.Perm (a :: l.set i b)
              (b :: (l.set i b).set j a) :=
            perm_cons_set a (l.set i b) j b hj'
          exact ((p1.trans p2).cons_inv).symm

/-- The swap loop of `shuffleArray` permutes the list. -/
theorem shuffleStep_perm {α : Type} (rand : Nat → Nat) :
    ∀ (i : Nat) (l : List α), List.Perm (shuffleStep rand i l) l
  | 0, l => List.Perm.refl l
  | i + 1, l =>
      (shuffleStep_perm rand i (swapL l (i + 1) (rand (i + 1)))).trans
        (swapL_perm l (i + 1) (rand (i + 1)))

/-- `shuffleArray` returns a permutation of its input, for every random
stream. -/
theorem shuffleArray_perm {α : Type} (rand : Nat → Nat) (l : List α) :
    List.Perm (shuffleArray rand l) l :=
  shuffleStep_perm rand (l.length - 1) l

/-- `shuffleArray` preserves length. -/
theorem shuffleArray_length {α : Type} (rand : Nat → Nat) (l : List α) :
    (shuffleArray rand l).length = l.length :=
  (shuffleArray_perm rand l).length_eq

/-- `shuffleArray` preserves the multiset of elements. -/
theorem shuffleArray_coe {α : Type} (rand : Nat → Nat) (l : List α) :
    ((shuffleArray rand l : List α) : Multiset α) = (l : Multiset α) :=
  Multiset.coe_eq_coe.2 (shuffleArray_perm rand l)

/-- The four level pools concatenated form a sub-multiset of the
repository: each question matches at most one level filter. -/
theorem coe_filters4_le (qs : List Question) :
    ((getQuestionsByLevel qs "A1" ++ getQuestionsByLevel qs "A2" ++
        getQuestionsByLevel qs "B1" ++ getQuestionsByLevel qs "B2" :
        List Question) : Multiset Question) ≤ (qs : Multiset Question) := by
  induction qs with
  | nil => simp [getQuestionsByLevel]
  | cons q rest ih =>
      simp only [getQuestionsByLevel, List.filter_cons] at ih ⊢
      simp only [← Multiset.coe_add] at ih ⊢
      by_cases h1 : (q.level == "A1") = true
      · have h2 : ¬ (q.level == "A2") = true := by simp_all
        have h3 : ¬ (q.level == "B1") = true := by simp_all
        have h4 : ¬ (q.level == "B2") = true := by simp_all
        simp only [h1, h2, h3, h4, if_true, if_false, ite_false, ite_true,
          ← Multiset.cons_coe, Multiset.cons_add, Multiset.add_cons]
        exact Multiset.cons_le_cons q ih
      · by_cases h2 : (q.level == "A2") = true
        · have h3 : ¬ (q.level == "B1") = true := by simp_all
          have h4 : ¬ (q.level == "B2") = true := by simp_all
          simp only [h1, h2, h3, h4, if_true, if_false, ite_false, ite_true,
            ← Multiset.cons_coe, Multiset.cons_add, Multiset.add_cons]
          exact Multiset.cons_le_cons q ih
        · by_cases h3 : (q.level == "B1") = true
          · have h4 : ¬ (q.level == "B2") = true := by simp_all
            simp only [h1, h2, h3, h4, if_true, if_false, ite_false,
              ite_true, ← Multiset.cons_coe, Multiset.cons_add,
              Multiset.add_cons]
            exact Multiset.cons_le_cons q ih
          · by_cases h4 : (q.level == "B2") = true
            · simp only [h1, h2, h3, h4, if_true, if_false, ite_false,
                ite_true, ← Multiset.cons_coe, Multiset.cons_add,
                Multiset.add_cons]
              exact Multiset.cons_le_cons q ih
            · simp only [h1, h2, h3, h4, if_false, ite_false]
              exact le_trans ih (Multiset.le_cons_self _ _)

/-- A `take` prefix is a sub-multiset. -/
theorem coe_take_le {α : Type} (l : List α) (n : Nat) :
    ((l.take n : List α) : Multiset α) ≤ (l : Multiset α) :=
  Multiset.coe_le.2 (List.take_sublist n l).subperm

/-- The default no-quota branch of `selectQuestionsForTest` with total 20,
written out: five questions drawn from each level pool, concatenated, then
shuffled. -/
theorem selectQuestionsForTest_default_unfold (randLevel : Nat → Nat → Nat)
    (randFinal : Nat → Nat) (qs : List Question) :
    selectQuestionsForTest randLevel randFinal qs
        { totalQuestions := 20, questionsPerLevel := none } =
      shuffleArray randFinal
        ((shuffleArray (randLevel 0) (getQuestionsByLevel qs "A1")).take 5 ++
          ((shuffleArray (randLevel 1)
              (getQuestionsByLevel qs "A2")).take 5 ++
            ((shuffleArray (randLevel 2)
                (getQuestionsByLevel qs "B1")).take 5 ++
              ((shuffleArray (randLevel 3)
                  (getQuestionsByLevel qs "B2")).take 5 ++ [])))) :=
  rfl

/-- Elements of a truncated shuffle come from the original pool. -/
theorem mem_of_mem_take_shuffle {α : Type} (rand : Nat → Nat) (l : List α)
    (n : Nat) {x : α} (hx : x ∈ (shuffleArray rand l).take n) : x ∈ l :=
  (shuffleArray_perm rand l).mem_iff.1 (List.mem_of_mem_take hx)

/-- `selectQuestionsForTest` as a transition on the service state
`this.questions`: the method body contains no assignment to
`this.questions` (`shuffleArray` copies its argument with `[...array]`
before swapping), so the state component is returned unchanged next to the
selection. -/
def selectQuestionsForTestS (randLevel : Nat → Nat → Nat)
    (randFinal : Nat → Nat) (st : List Question) (config : SelectConfig) :
    List Question × List Question :=
  (selectQuestionsForTest randLevel randFinal st config, st)

set_option maxHeartbeats 1000000 in
/-- C7: on a repository holding at least 5 questions of each level and with
pairwise-distinct question ids, the default quota-free selection with total
20 returns exactly 20 questions (floor(20/4) = 5 per level), with no
duplicate ids, containing questions of all four levels, for every random
choice sequence; and the repository state is left unchanged (the selection
only reads it). -/
theorem selectQuestionsForTest_default_twenty
    (randLevel : Nat → Nat → Nat) (randFinal : Nat → Nat)
    (questions : List Question)
    (h1 : 5 ≤ (getQuestionsByLevel questions "A1").length)
    (h2 : 5 ≤ (getQuestionsByLevel questions "A2").length)
    (h3 : 5 ≤ (getQuestionsByLevel questions "B1").length)
    (h4 : 5 ≤ (getQuestionsByLevel questions "B2").length)
    (hids : (questions.map Question.id).Nodup) :
    (selectQuestionsForTest randLevel randFinal questions
        { totalQuestions := 20, questionsPerLevel := none }).length = 20 ∧
    ((selectQuestionsForTest randLevel randFinal questions
        { totalQuestions := 20, questionsPerLevel := none }).map
        Question.id).Nodup ∧
    (∀ level ∈ (["A1", "A2", "B1", "B2"] : List String),
      ∃ q ∈ selectQuestionsForTest randLevel randFinal questions
          { totalQuestions := 20, questionsPerLevel := none },
        q.level = level) ∧
    (selectQuestionsForTestS randLevel randFinal questions
        { totalQuestions := 20, questionsPerLevel := none }).2 =
      questions := by
  rw [selectQuestionsForTest_default_unfold]
  set tA := (shuffleArray (randLevel 0)
    (getQuestionsByLevel questions "A1")).take 5 with htA
  set tB := (shuffleArray (randLevel 1)
    (getQuestionsByLevel questions "A2")).take 5 with htB
  set tC := (shuffleArray (randLevel 2)
    (getQuestionsByLevel questions "B1")).take 5 with htC
  set tD := (shuffleArray (randLevel 3)
    (getQuestionsByLevel questions "B2")).take 5 with htD
  have lA : tA.length = 5 := by
    rw [htA, List.length_take, shuffleArray_length]
    omega
  have lB : tB.length = 5 := by
    rw [htB, List.length_take, shuffleArray_length]
    omega
  have lC : tC.length = 5 := by
    rw [htC, List.length_take, shuffleArray_length]
    omega
  have lD : tD.length = 5 := by
    rw [htD, List.length_take, shuffleArray_length]
    omega
  have cA : ((tA : List Question) : Multiset Question) ≤
      ↑(getQuestionsByLevel questions "A1") := by
    rw [htA]
    exact le_trans (coe_take_le _ 5) (le_of_eq (shuffleArray_coe _ _))
  have cB : ((tB : List Question) : Multiset Question) ≤
      ↑(getQuestionsByLevel questions "A2") := by
    rw [htB]
    exact le_trans (coe_take_le _ 5) (le_of_eq (shuffleArray_coe _ _))
  have cC : ((tC : List Question) : Multiset Question) ≤
      ↑(getQuestionsByLevel questions "B1") := by
    rw [htC]
    exact le_trans (coe_take_le _ 5) (le_of_eq (shuffleArray_coe _ _))
  have cD : ((tD : List Question) : Multiset Question) ≤
      ↑(getQuestionsByLevel questions "B2") := by
    rw [htD]
    exact le_trans (coe_take_le _ 5) (le_of_eq (shuffleArray_coe _ _))
  have hconcat : ((tA ++ (tB ++ (tC ++ (tD ++ []))) : List Question) :
      Multiset Question) ≤ (questions : Multiset Question) := by
    have e1 : ((tA ++ (tB ++ (tC ++ (tD ++ []))) : List Question) :
        Multiset Question) = ↑tA + (↑tB + (↑tC + ↑tD)) := by
      simp [← Multiset.coe_add]
    have e2 : (↑(getQuestionsByLevel questions "A1") +
          (↑(getQuestionsByLevel questions "A2") +
            (↑(getQuestionsByLevel questions "B1") +
              ↑(getQuestionsByLevel questions "B2"))) :
        Multiset Question) =
        ↑(getQuestionsByLevel questions "A1" ++
          getQuestionsByLevel questions "A2" ++
          getQuestionsByLevel questions "B1" ++
          getQuestionsByLevel questions "B2") := by
      simp [← Multiset.coe_add, add_assoc]
    rw [e1]
    exact le_trans
      (le_trans (add_le_add cA (add_le_add cB (add_le_add cC cD)))
        (le_of_eq e2))
      (coe_filters4_le questions)
  have hS : ((shuffleArray randFinal (tA ++ (tB ++ (tC ++ (tD ++ []))))) :
      Multiset Question) ≤ (questions : Multiset Question) := by
    rw [shuffleArray_coe]
    exact hconcat
  refine ⟨?_, ?_, ?_, rfl⟩
  · rw [shuffleArray_length]
    simp [lA, lB, lC, lD]
  · have hmap : (((shuffleArray randFinal
        (tA ++ (tB ++ (tC ++ (tD ++ []))))).map Question.id : List Int) :
        Multiset Int) ≤ ((questions.map Question.id : List Int) :
        Multiset Int) := by
      rw [← Multiset.map_coe, ← Multiset.map_coe]
      exact Multiset.map_le_map hS
    exact Multiset.coe_nodup.1
      (Multiset.nodup_of_le hmap (Multiset.coe_nodup.2 hids))
  · have hmemS : ∀ {q : Question},
        q ∈ tA ++ (tB ++ (tC ++ (tD ++ []))) →
        q ∈ shuffleArray randFinal (tA ++ (tB ++ (tC ++ (tD ++ [])))) :=
      fun hq => (shuffleArray_perm randFinal _).mem_iff.2 hq
    intro level hlevel
    simp only [List.mem_cons, List.mem_singleton] at hlevel
    rcases hlevel with rfl | rfl | rfl | rfl | h
    · obtain ⟨q, hq⟩ := List.exists_mem_of_length_pos (by omega : 0 < tA.length)
      refine ⟨q, hmemS (List.mem_append.2 (Or.inl hq)), ?_⟩
      have hq' := mem_of_mem_take_shuffle (randLevel 0) _ 5 (htA ▸ hq)
      simpa using (List.mem_filter.1 hq').2
    · obtain ⟨q, hq⟩ := List.exists_mem_of_length_pos (by omega : 0 < tB.length)
      refine ⟨q, hmemS (List.mem_append.2 (Or.inr
        (List.mem_append.2 (Or.inl hq)))), ?_⟩
      have hq' := mem_of_mem_take_shuffle (randLevel 1) _ 5 (htB ▸ hq)
      simpa using (List.mem_filter.1 hq').2
    · obtain ⟨q, hq⟩ := List.exists_mem_of_length_pos (by omega : 0 < tC.length)
      refine ⟨q, hmemS (List.mem_append.2 (Or.inr
        (List.mem_append.2 (Or.inr (List.mem_append.2 (Or.inl hq)))))), ?_⟩
      have hq' := mem_of_mem_take_shuffle (randLevel 2) _ 5 (htC ▸ hq)
      simpa using (List.mem_filter.1 hq').2
    · obtain ⟨q, hq⟩ := List.exists_mem_of_length_pos (by omega : 0 < tD.length)
      refine ⟨q, hmemS (List.mem_append.2 (Or.inr
        (List.mem_append.2 (Or.inr (List.mem_append.2 (Or.inr
          (List.mem_append.2 (Or.inl hq)))))))), ?_⟩
      have hq' := mem_of_mem_take_shuffle (randLevel 3) _ 5 (htD ▸ hq)
      simpa using (List.mem_filter.1 hq').2
    · cases h

/-- Question constructor for the C7 witness repository. -/
def mkQ (i : Int) (lv : String) : Question :=
  { id := i, text := "q", options := ["a", "b", "c", "d"], correct := 0,
    level := lv, category := "grammar", weight := none }

/-- Twenty-question repository, five per level, for the C7 witness. -/
def c7Repo : List Question :=
  [mkQ 1 "A1", mkQ 2 "A1", mkQ 3 "A1", mkQ 4 "A1", mkQ 5 "A1",
   mkQ 6 "A2", mkQ 7 "A2", mkQ 8 "A2", mkQ 9 "A2", mkQ 10 "A2",
   mkQ 11 "B1", mkQ 12 "B1", mkQ 13 "B1", mkQ 14 "B1", mkQ 15 "B1",
   mkQ 16 "B2", mkQ 17 "B2", mkQ 18 "B2", mkQ 19 "B2", mkQ 20 "B2"]

/-- Witness for C7 on a concrete 20-question repository with the constant
random stream. -/
theorem selectQuestionsForTest_default_twenty_witness :
    (selectQuestionsForTest (fun _ _ => 0) (fun _ => 0) c7Repo
        { totalQuestions := 20, questionsPerLevel := none }).length = 20 :=
  (selectQuestionsForTest_default_twenty (fun _ _ => 0) (fun _ => 0) c7Repo
    (by decide) (by decide) (by decide) (by decide) (by decide)).1

end TimurBot
